import Mathlib

/-!
Shallow embedding of `src/FacultyDashboard.jsx`: a single-page faculty
portal that authenticates a user, bootstraps a private profile record,
opens course-filtered realtime subscriptions on two shared collections
(assignments, schedule) and exposes two append commands.

Modelling conventions: JS strings are `String`; a JS string is falsy
exactly when it is empty.  Firestore `Timestamp` instants are `Nat`
(`Timestamp.now()` becomes an explicit `now` argument); `toDate()` is the
identity on the underlying instant.  A remote call that can reject is a
`StoreResult` argument; the db handle being set is a `Bool`.  The
component's event-driven lifecycle is a step function on an explicit
state type.
-/

namespace FacultyDashboard

/-- JS `s.substring(0, n)`: the first `n` characters of `s`
(the whole string when `s` has fewer than `n`). -/
def substringTo (s : String) (n : Nat) : String :=
  String.mk (s.data.take n)

/-- The faculty profile record.  `facultyId` and `lastLogin` are optional
because the hard-coded initial local profile (line 30) lacks them. -/
structure Profile where
  name : String
  facultyId : Option String
  email : String
  course : String
  lastLogin : Option Nat
deriving Repr, DecidableEq

/-- Line 30: the initial local profile state,
`{ name: 'RBC Faculty', email: 'faculty@rbc.edu', course: 'CS101' }`. -/
def initialProfile : Profile :=
  { name := "RBC Faculty", facultyId := none, email := "faculty@rbc.edu",
    course := "CS101", lastLogin := none }

/-- Lines 107-113: the default profile seeded on first access;
`facultyId` is `userId.substring(0, 8)` and `lastLogin` is `Timestamp.now()`. -/
def defaultProfile (userId : String) (now : Nat) : Profile :=
  { name := "Dr. Jane Smith", facultyId := some (substringTo userId 8),
    email := "jane.smith@rbc.edu", course := "CS101", lastLogin := some now }

/-- Lines 104-119, the happy path of `initializeProfile`: read the record
at the profile key; if absent, write the default and adopt it locally; if
present, adopt the stored record as is.  Returns the new local profile
together with the record written to the store (`none` when nothing was
written). -/
def initializeProfile (userId : String) (now : Nat) (stored : Option Profile) :
    Profile × Option Profile :=
  match stored with
  | none => (defaultProfile userId now, some (defaultProfile userId now))
  | some p => (p, none)

/-- A remote store call as observed by the component: it either resolved
with a value or rejected with an error message. -/
inductive StoreResult (α : Type) where
  | ok (a : α)
  | err (msg : String)
deriving Repr, DecidableEq

/-- Lines 104-121 with the remote calls made explicit: `initializeProfile()`
is invoked with no surrounding try/catch and its promise is not awaited or
caught, so if `getDoc` or `setDoc` rejects the async function aborts before
`setProfile`, nothing is logged, and the rejection escapes unhandled.
Returns (new local profile, console error lines, whether a rejection
escaped the component). -/
def initializeProfileRun (userId : String) (now : Nat)
    (readResult : StoreResult (Option Profile)) (writeResult : StoreResult Unit)
    (localProfile : Profile) : Profile × List String × Bool :=
  match readResult with
  | .err _ => (localProfile, [], true)
  | .ok none =>
      match writeResult with
      | .err _ => (localProfile, [], true)
      | .ok _ => (defaultProfile userId now, [], false)
  | .ok (some p) => (p, [], false)

/-- Lines 128-130: the error callback of the profile subscription logs the
error and does not touch the local profile. -/
def profileSnapshotError (msg : String) (localProfile : Profile) :
    Profile × List String :=
  (localProfile, ["Error listening to faculty profile: " ++ msg])

/-- Lines 33-35: the assignment form state. -/
structure AssignmentForm where
  title : String
  description : String
  dueDate : String
  course : String
deriving Repr, DecidableEq

/-- Lines 36-38: the schedule form state. -/
structure ScheduleForm where
  course : String
  location : String
  time : String
  day : String
  instructor : String
deriving Repr, DecidableEq

/-- The document built by `handlePostAssignment` (lines 189-196).
`dueDate` is `Timestamp.fromDate(new Date(form.dueDate))`, an instant
produced by parsing the form's date string. -/
structure AssignmentData where
  title : String
  description : String
  course : String
  dueDate : Nat
  postedBy : String
  postedAt : Nat
deriving Repr, DecidableEq

/-- Lines 185-206, `handlePostAssignment`: guard on db and the falsiness
of title, description, dueDate and profile.course; otherwise build the
record from the form and the profile, append it, and on success reset the
form (title/description/dueDate cleared, course re-seeded from the
profile); on rejection log and change nothing.  `parseDate` models
`Timestamp.fromDate(new Date(·))`; `addResult` is the outcome of `addDoc`.
Returns (assignments collection, form state, console error lines). -/
def handlePostAssignment (dbAvailable : Bool) (form : AssignmentForm)
    (profile : Profile) (parseDate : String → Nat) (now : Nat)
    (addResult : StoreResult Unit) (assignments : List AssignmentData)
    (log : List String) :
    List AssignmentData × AssignmentForm × List String :=
  if !dbAvailable || form.title == "" || form.description == "" ||
      form.dueDate == "" || profile.course == "" then
    (assignments, form, log)
  else
    let assignmentData : AssignmentData :=
      { title := form.title, description := form.description,
        course := profile.course, dueDate := parseDate form.dueDate,
        postedBy := profile.name, postedAt := now }
    match addResult with
    | .ok _ =>
        (assignments ++ [assignmentData],
         { title := "", description := "", dueDate := "",
           course := profile.course },
         log)
    | .err msg => (assignments, form, log ++ ["Error posting assignment: " ++ msg])

/-- The document built by `handlePostSchedule` (lines 212-219). -/
structure ScheduleData where
  course : String
  location : String
  time : String
  day : String
  instructor : String
  postedAt : Nat
deriving Repr, DecidableEq

/-- Lines 208-229, `handlePostSchedule`: guard on db and the falsiness of
location, time, day and profile.course; otherwise append a record taking
course and instructor from the profile and location/time/day from the
form, and on success reset the form (location/time cleared, day back to
Monday, course/instructor re-seeded from the profile); on rejection log
and change nothing. -/
def handlePostSchedule (dbAvailable : Bool) (form : ScheduleForm)
    (profile : Profile) (now : Nat) (addResult : StoreResult Unit)
    (schedule : List ScheduleData) (log : List String) :
    List ScheduleData × ScheduleForm × List String :=
  if !dbAvailable || form.location == "" || form.time == "" ||
      form.day == "" || profile.course == "" then
    (schedule, form, log)
  else
    let scheduleData : ScheduleData :=
      { course := profile.course, location := form.location,
        time := form.time, day := form.day, instructor := profile.name,
        postedAt := now }
    match addResult with
    | .ok _ =>
        (schedule ++ [scheduleData],
         { course := profile.course, location := "", time := "",
           day := "Monday", instructor := profile.name },
         log)
    | .err msg => (schedule, form, log ++ ["Error posting schedule: " ++ msg])

/-- A remote assignment document as the snapshot delivers it (line 144):
the document id plus the stored fields; `dueDate` and `postedAt` may be
absent. -/
structure AssignmentDoc where
  id : String
  title : String
  description : String
  course : String
  dueDate : Option Nat
  postedBy : String
  postedAt : Option Nat
deriving Repr, DecidableEq

/-- The locally projected assignment (lines 144-148): stored fields copied
1:1, `dueDate` converted with `toDate()` when present and `null` otherwise
(the conversion is the identity on the modelled instant). -/
structure AssignmentView where
  id : String
  title : String
  description : String
  course : String
  dueDate : Option Nat
  postedBy : String
  postedAt : Option Nat
deriving Repr, DecidableEq

/-- Lines 144-148: the per-document projection of the assignments
snapshot handler. -/
def mapAssignmentDoc (d : AssignmentDoc) : AssignmentView :=
  { id := d.id, title := d.title, description := d.description,
    course := d.course, dueDate := d.dueDate, postedBy := d.postedBy,
    postedAt := d.postedAt }

/-- `a.postedAt || 0` (line 149): a missing `postedAt` reads as 0 in the
sort comparator. -/
def postedAtKey (a : AssignmentView) : Nat :=
  a.postedAt.getD 0

/-- The comparator of line 149, `(a, b) => (b.postedAt || 0) - (a.postedAt || 0)`,
as the ordering it induces: `a` may stay before `b` when the difference is
non-positive, i.e. when `b.postedAt || 0 ≤ a.postedAt || 0`. -/
def postedAtDescLe (a b : AssignmentView) : Bool :=
  postedAtKey b ≤ postedAtKey a

/-- Lines 143-149: the assignments snapshot handler maps the whole batch
and sorts it descending by `postedAt` (missing read as 0).  JS
`Array.prototype.sort` with a consistent comparator is a stable sort;
`List.mergeSort` models it. -/
def assignmentsSnapshotHandler (docs : List AssignmentDoc) : List AssignmentView :=
  (docs.map mapAssignmentDoc).mergeSort postedAtDescLe

/-- A remote schedule document as the snapshot delivers it (line 159). -/
structure ScheduleDoc where
  id : String
  course : String
  location : String
  time : String
  day : String
  instructor : String
  postedAt : Option Nat
deriving Repr, DecidableEq

/-- Lines 158-164: the schedule snapshot handler maps stored fields 1:1,
defaulting a falsy `time` to the literal "N/A"; no sort is applied. -/
def scheduleSnapshotHandler (docs : List ScheduleDoc) : List ScheduleDoc :=
  docs.map fun d => { d with time := if d.time == "" then "N/A" else d.time }

/-- The events that drive the component: the init effect setting the db
handle (lines 44-93), an `onAuthStateChanged` callback (lines 75-83, with
the `crypto.randomUUID()` fallback made an explicit argument), the
profile bootstrap and profile snapshot deliveries (lines 98-133), and a
run of the content-subscriptions effect (lines 136-173). -/
inductive Event where
  | firebaseInit
  | authChange (user : Option String) (fallbackId : String)
  | profileBootstrap (stored : Option Profile) (now : Nat)
  | profileSnapshot (data : Option Profile)
  | contentEffect
deriving Repr, DecidableEq

/-- The component state the claims are about: the db handle, auth
readiness, the recorded identity, the local profile, whether the profile
store has delivered at least one value, and the course filter of the open
content subscriptions (`none` when closed). -/
structure DashState where
  db : Bool
  isAuthReady : Bool
  userId : Option String
  profile : Profile
  profileDelivered : Bool
  subsCourse : Option String
deriving Repr, DecidableEq

/-- Lines 20-30: the initial state of all `useState` hooks. -/
def initialState : DashState :=
  { db := false, isAuthReady := false, userId := none,
    profile := initialProfile, profileDelivered := false, subsCourse := none }

/-- Line 99: the guard of the profile effect; profile reads, writes and
snapshot deliveries happen only past it. -/
def profileEffectActive (s : DashState) : Bool :=
  s.db && s.userId.isSome && s.isAuthReady

/-- One step of the component.
`firebaseInit` (lines 52-57) sets the db handle.  `authChange`
(lines 75-83) — possible only once the init effect registered the
listener, hence guarded on `db` — records `user.uid` when a user is
present and a freshly generated id otherwise, and sets auth readiness.
`profileBootstrap` and `profileSnapshot` (lines 104-127) replace the
local profile when they deliver a value (`profileSnapshot` ignores a
snapshot whose document does not exist, lines 124-127).  `contentEffect`
(lines 136-173) closes any previous subscriptions and re-opens them
filtered by `profile.course` exactly when `db`, auth readiness and a
non-empty course all hold (line 137). -/
def step (s : DashState) : Event → DashState
  | .firebaseInit => { s with db := true }
  | .authChange user fallbackId =>
      if s.db then
        { s with userId := some (user.getD fallbackId), isAuthReady := true }
      else s
  | .profileBootstrap stored now =>
      if profileEffectActive s then
        { s with profile := (initializeProfile (s.userId.getD "") now stored).1,
                 profileDelivered := true }
      else s
  | .profileSnapshot data =>
      if profileEffectActive s then
        match data with
        | some p => { s with profile := p, profileDelivered := true }
        | none => s
      else s
  | .contentEffect =>
      { s with subsCourse :=
          if s.db && s.isAuthReady && !(s.profile.course == "") then
            some s.profile.course
          else none }

/-- Run the component from its initial state through a list of events. -/
def run (events : List Event) : DashState :=
  events.foldl step initialState

/-- The states the component can reach from its initial state. -/
inductive Reachable : DashState → Prop where
  | init : Reachable initialState
  | next {s : DashState} (e : Event) : Reachable s → Reachable (step s e)

/-- Folding the step function over events preserves reachability. -/
theorem reachable_foldl (events : List Event) (s : DashState) (h : Reachable s) :
    Reachable (events.foldl step s) := by
  induction events generalizing s with
  | nil => exact h
  | cons e es ih => exact ih _ (Reachable.next e h)

/-- Every state produced by `run` is reachable. -/
theorem reachable_run (events : List Event) : Reachable (run events) :=
  reachable_foldl events initialState Reachable.init

/-- Claim C1: with db available, title, description and dueDate non-empty
and the profile course non-empty, a successful `handlePostAssignment`
appends exactly one record — course from the profile, postedBy from the
profile name, title and description from the form — and resets the form's
title, description and dueDate to empty while its course is re-seeded
from the profile. -/
theorem postAssignment_appends_and_resets
    (form : AssignmentForm) (profile : Profile) (parseDate : String → Nat)
    (now : Nat) (assignments : List AssignmentData) (log : List String)
    (ht : form.title ≠ "") (hd : form.description ≠ "")
    (hdd : form.dueDate ≠ "") (hc : profile.course ≠ "") :
    handlePostAssignment true form profile parseDate now (StoreResult.ok ())
        assignments log =
      (assignments ++
        [{ title := form.title, description := form.description,
           course := profile.course, dueDate := parseDate form.dueDate,
           postedBy := profile.name, postedAt := now }],
       { title := "", description := "", dueDate := "",
         course := profile.course },
       log) := by
  simp [handlePostAssignment, ht, hd, hdd, hc]

/-- Claim C1 witness: the theorem at a concrete filled form and profile. -/
theorem postAssignment_appends_and_resets_witness :
    handlePostAssignment true
        { title := "HW1", description := "Read chapter 1",
          dueDate := "2025-01-01", course := "CS101" }
        initialProfile (fun _ => 7) 42 (StoreResult.ok ()) [] [] =
      ([{ title := "HW1", description := "Read chapter 1", course := "CS101",
          dueDate := 7, postedBy := "RBC Faculty", postedAt := 42 }],
       { title := "", description := "", dueDate := "", course := "CS101" },
       []) :=
  postAssignment_appends_and_resets _ _ _ _ _ _ (by decide) (by decide)
    (by decide) (by decide)

/-- Claim C2: when the db is unavailable or any of title, description,
dueDate or the profile course is empty, `handlePostAssignment` is a
silent no-op: the collection, the form and the console log are returned
unchanged. -/
theorem postAssignment_invalid_is_noop
    (dbAvailable : Bool) (form : AssignmentForm) (profile : Profile)
    (parseDate : String → Nat) (now : Nat) (addResult : StoreResult Unit)
    (assignments : List AssignmentData) (log : List String)
    (h : dbAvailable = false ∨ form.title = "" ∨ form.description = "" ∨
         form.dueDate = "" ∨ profile.course = "") :
    handlePostAssignment dbAvailable form profile parseDate now addResult
        assignments log = (assignments, form, log) := by
  rcases h with h | h | h | h | h <;> simp [handlePostAssignment, h]

/-- Claim C2 witness: the theorem at a form with an empty title. -/
theorem postAssignment_invalid_is_noop_witness :
    handlePostAssignment true
        { title := "", description := "d", dueDate := "2025-01-01",
          course := "CS101" }
        initialProfile (fun _ => 0) 0 (StoreResult.ok ()) [] [] =
      ([],
       { title := "", description := "d", dueDate := "2025-01-01",
         course := "CS101" },
       []) :=
  postAssignment_invalid_is_noop _ _ _ _ _ _ _ _ (Or.inr (Or.inl rfl))

/-- Claim C3: the assignments snapshot handler delivers a permutation of
the mapped batch, pairwise sorted descending by `postedAt` with a missing
`postedAt` read as 0, so a record lacking `postedAt` has a key that is
minimal among the delivered records. -/
theorem assignments_delivered_sorted_desc (docs : List AssignmentDoc) :
    List.Pairwise (fun a b => postedAtKey b ≤ postedAtKey a)
        (assignmentsSnapshotHandler docs)
    ∧ (assignmentsSnapshotHandler docs).Perm (docs.map mapAssignmentDoc)
    ∧ ∀ v ∈ assignmentsSnapshotHandler docs, v.postedAt = none →
        postedAtKey v = 0 ∧
        ∀ w ∈ assignmentsSnapshotHandler docs, postedAtKey v ≤ postedAtKey w := by
  refine ⟨?_, List.mergeSort_perm _ _, ?_⟩
  · have htrans : ∀ a b c, postedAtDescLe a b = true → postedAtDescLe b c = true →
        postedAtDescLe a c = true := by
      intro a b c hab hbc
      simp only [postedAtDescLe, decide_eq_true_eq] at *
      exact le_trans hbc hab
    have htotal : ∀ a b, (postedAtDescLe a b || postedAtDescLe b a) = true := by
      intro a b
      simp only [postedAtDescLe, Bool.or_eq_true, decide_eq_true_eq]
      exact Nat.le_total (postedAtKey b) (postedAtKey a)
    have h := List.sorted_mergeSort htrans htotal (docs.map mapAssignmentDoc)
    exact h.imp fun hab => by
      simpa only [postedAtDescLe, decide_eq_true_eq] using hab
  · intro v _ hv
    refine ⟨by simp [postedAtKey, hv], fun w _ => ?_⟩
    simp only [postedAtKey, hv, Option.getD_none]
    exact Nat.zero_le _

/-- Claim C4: with no stored record, the profile bootstrap creates and
adopts a default whose `facultyId` is the first 8 characters of the
identity id (and writes exactly that record); with a stored record it
adopts it unmodified and writes nothing.  The last conjunct is the spec
scenario, identity "abcdefgh12345". -/
theorem profile_bootstrap_shortId_and_existing
    (userId : String) (now : Nat) (p : Profile) :
    (initializeProfile userId now none).1.facultyId =
        some (String.mk (userId.data.take 8))
    ∧ (initializeProfile userId now none).2 =
        some (initializeProfile userId now none).1
    ∧ initializeProfile userId now (some p) = (p, none)
    ∧ (initializeProfile "abcdefgh12345" 0 none).1.facultyId = some "abcdefgh" :=
  ⟨rfl, rfl, rfl, by decide⟩

/-- Claim C5: with db available, location, time and day non-empty and the
profile course non-empty, a successful `handlePostSchedule` appends
exactly one record whose instructor and course come from the profile and
whose location, time and day come from the form; afterwards location and
time are cleared, day returns to "Monday" and instructor/course are
re-seeded from the profile. -/
theorem postSchedule_appends_and_resets
    (form : ScheduleForm) (profile : Profile) (now : Nat)
    (schedule : List ScheduleData) (log : List String)
    (hl : form.location ≠ "") (ht : form.time ≠ "") (hd : form.day ≠ "")
    (hc : profile.course ≠ "") :
    handlePostSchedule true form profile now (StoreResult.ok ()) schedule log =
      (schedule ++
        [{ course := profile.course, location := form.location,
           time := form.time, day := form.day, instructor := profile.name,
           postedAt := now }],
       { course := profile.course, location := "", time := "",
         day := "Monday", instructor := profile.name },
       log) := by
  simp [handlePostSchedule, hl, ht, hd, hc]

/-- Claim C5 witness: the spec scenario — location "SW-305", time
"9:00-10:30", day "Monday", profile course "CS101", profile name
"Dr. Smith". -/
theorem postSchedule_appends_and_resets_witness :
    handlePostSchedule true
        { course := "CS101", location := "SW-305", time := "9:00-10:30",
          day := "Monday", instructor := "Dr. Smith" }
        { name := "Dr. Smith", facultyId := none, email := "smith@rbc.edu",
          course := "CS101", lastLogin := none }
        100 (StoreResult.ok ()) [] [] =
      ([{ course := "CS101", location := "SW-305", time := "9:00-10:30",
          day := "Monday", instructor := "Dr. Smith", postedAt := 100 }],
       { course := "CS101", location := "", time := "", day := "Monday",
         instructor := "Dr. Smith" },
       []) :=
  postSchedule_appends_and_resets _ _ _ _ _ (by decide) (by decide)
    (by decide) (by decide)

/-- Claim C6 counterexample: the content subscriptions CAN be open before
the profile store has delivered any value — the initial local profile
hard-codes course "CS101", so after the init effect and one auth callback
the content effect opens the subscriptions while `profileDelivered` is
still false. -/
theorem subscriptions_open_before_delivery_cex :
    ¬ (∀ s : DashState, Reachable s → s.subsCourse.isSome = true →
        s.profileDelivered = true) := by
  intro h
  have hr : Reachable (run
      [Event.firebaseInit, Event.authChange none "local-uuid-1",
       Event.contentEffect]) := reachable_run _
  exact absurd (h _ hr (by decide)) (by decide)

/-- Invariant: before the first profile delivery the local profile is
still the hard-coded initial one, and open subscriptions imply db, auth
readiness and a non-empty filter course that is either delivered or the
hard-coded default "CS101". -/
def contentSubsInv (s : DashState) : Prop :=
  (s.profileDelivered = false → s.profile = initialProfile) ∧
  (∀ c, s.subsCourse = some c →
    s.db = true ∧ s.isAuthReady = true ∧ c ≠ "" ∧
      (s.profileDelivered = true ∨ c = "CS101"))

/-- The invariant holds initially and is preserved by every step. -/
theorem contentSubsInv_reachable (s : DashState) (h : Reachable s) :
    contentSubsInv s := by
  induction h with
  | init =>
      exact ⟨fun _ => rfl, fun c hc => by simp [initialState] at hc⟩
  | next e hs ih =>
      obtain ⟨h1, h2⟩ := ih
      rename_i t
      cases e with
      | firebaseInit =>
          exact ⟨h1, fun c hc => ⟨rfl, (h2 c hc).2.1, (h2 c hc).2.2.1,
            (h2 c hc).2.2.2⟩⟩
      | authChange user fallbackId =>
          simp only [step]
          split
          · exact ⟨h1, fun c hc => ⟨(h2 c hc).1, rfl, (h2 c hc).2.2.1,
              (h2 c hc).2.2.2⟩⟩
          · exact ⟨h1, h2⟩
      | profileBootstrap stored now =>
          simp only [step]
          split
          · refine ⟨fun hdel => by simp at hdel, fun c hc => ?_⟩
            exact ⟨(h2 c hc).1, (h2 c hc).2.1, (h2 c hc).2.2.1, Or.inl rfl⟩
          · exact ⟨h1, h2⟩
      | profileSnapshot data =>
          simp only [step]
          split
          · cases data with
            | some p =>
                refine ⟨fun hdel => by simp at hdel, fun c hc => ?_⟩
                exact ⟨(h2 c hc).1, (h2 c hc).2.1, (h2 c hc).2.2.1, Or.inl rfl⟩
            | none => exact ⟨h1, h2⟩
          · exact ⟨h1, h2⟩
      | contentEffect =>
          refine ⟨h1, fun c hc => ?_⟩
          simp only [step] at hc
          by_cases hg : (t.db && t.isAuthReady && !(t.profile.course == "")) = true
          · rw [if_pos hg] at hc
            have hcc : t.profile.course = c := by simpa using hc
            simp only [Bool.and_eq_true, Bool.not_eq_true',
              beq_eq_false_iff_ne] at hg
            obtain ⟨⟨hdb, hro⟩, hne⟩ := hg
            refine ⟨hdb, hro, hcc ▸ hne, ?_⟩
            cases hdeliv : t.profileDelivered with
            | true => exact Or.inl hdeliv
            | false =>
                refine Or.inr ?_
                rw [← hcc, h1 hdeliv]
                rfl
          · rw [if_neg hg] at hc
            exact absurd hc (by simp)

/-- Claim C6 amended: in every reachable state, subscriptions are open
only with db set, auth ready and a non-empty course filter, and that
filter either came from a delivered profile or is the hard-coded initial
default "CS101" — delivery of a profile value is NOT required first. -/
theorem subscriptions_open_guard (s : DashState) (h : Reachable s)
    (c : String) (hc : s.subsCourse = some c) :
    s.db = true ∧ s.isAuthReady = true ∧ c ≠ "" ∧
      (s.profileDelivered = true ∨ c = "CS101") :=
  (contentSubsInv_reachable s h).2 c hc

/-- Claim C6 witness: the amended theorem at the reachable state whose
subscriptions were opened from the initial default course. -/
theorem subscriptions_open_guard_witness :
    (run [Event.firebaseInit, Event.authChange none "local-uuid-1",
          Event.contentEffect]).db = true ∧
    (run [Event.firebaseInit, Event.authChange none "local-uuid-1",
          Event.contentEffect]).isAuthReady = true ∧
    "CS101" ≠ "" ∧
    ((run [Event.firebaseInit, Event.authChange none "local-uuid-1",
           Event.contentEffect]).profileDelivered = true ∨ "CS101" = "CS101") :=
  subscriptions_open_guard _ (reachable_run _) "CS101" (by decide)

/-- Claim C7 counterexample: the recorded identity id is NOT immutable —
after an auth callback with no user records a locally generated fallback
id, a later auth callback with a provider user overwrites it (the
listener re-sets `userId` on every invocation). -/
theorem identity_immutable_cex :
    ¬ (∀ s : DashState, Reachable s → ∀ u : String, s.userId = some u →
        ∀ e : Event, (step s e).userId = some u) := by
  intro h
  have hr : Reachable (run [Event.firebaseInit,
      Event.authChange none "fallback-uuid-1"]) := reachable_run _
  have h2 := h _ hr "fallback-uuid-1" (by decide)
      (Event.authChange (some "provider-uid-2") "x")
  exact absurd h2 (by decide)

/-- Claim C7 amended: the identity id is unchanged by every step except
an auth-state-change callback; such a callback (possible once the
listener is registered, i.e. db is set) overwrites it with the provider
uid when a user is present and with the freshly generated fallback
otherwise; once set, the identity id never reverts to unset. -/
theorem identity_updates_only_on_auth_events (s : DashState) (e : Event) :
    ((∀ user fallbackId, e ≠ Event.authChange user fallbackId) →
        (step s e).userId = s.userId)
    ∧ (∀ user fallbackId, e = Event.authChange user fallbackId →
        s.db = true → (step s e).userId = some (user.getD fallbackId))
    ∧ (s.userId.isSome = true → ((step s e).userId).isSome = true) := by
  cases e with
  | firebaseInit =>
      exact ⟨fun _ => rfl, fun u f heq => Event.noConfusion heq, fun h => h⟩
  | authChange user fallbackId =>
      refine ⟨fun hne => absurd rfl (hne user fallbackId), ?_, ?_⟩
      · intro u f heq hdb
        cases heq
        simp [step, hdb]
      · intro hsome
        cases hdb : s.db with
        | true => simp [step, hdb]
        | false => simpa [step, hdb] using hsome
  | profileBootstrap stored now =>
      refine ⟨fun _ => ?_, fun u f heq => Event.noConfusion heq, fun h => ?_⟩
      · simp only [step]
        split <;> rfl
      · simp only [step]
        split <;> exact h
  | profileSnapshot data =>
      refine ⟨fun _ => ?_, fun u f heq => Event.noConfusion heq, fun h => ?_⟩
      · simp only [step]
        split
        · cases data with
          | some p => rfl
          | none => rfl
        · rfl
      · simp only [step]
        split
        · cases data with
          | some p => exact h
          | none => exact h
        · exact h
  | contentEffect =>
      exact ⟨fun _ => rfl, fun u f heq => Event.noConfusion heq, fun h => h⟩

/-- Claim C8 counterexample: a failing profile read is NOT logged and its
rejection does propagate outward — `initializeProfile()` runs without any
try/catch, so on a `getDoc` rejection the console log stays empty and an
unhandled rejection escapes the component. -/
theorem profile_failure_not_logged_cex :
    ¬ (∀ (userId : String) (now : Nat) (msg : String) (wr : StoreResult Unit)
        (p : Profile),
        (initializeProfileRun userId now (StoreResult.err msg) wr p).2.1 ≠ [] ∧
        (initializeProfileRun userId now (StoreResult.err msg) wr p).2.2 = false) := by
  intro h
  exact (h "user-1" 0 "network error" (StoreResult.ok ()) initialProfile).1 rfl

/-- Claim C8 amended: every failing profile-store operation leaves the
local profile unchanged (stale-but-valid); a failing subscription is
logged with nothing escaping, but a failing bootstrap read or write is
not logged and its rejection escapes the component unhandled. -/
theorem profile_failure_semantics (userId : String) (now : Nat) (msg : String)
    (wr : StoreResult Unit) (p : Profile) :
    initializeProfileRun userId now (StoreResult.err msg) wr p = (p, [], true)
    ∧ initializeProfileRun userId now (StoreResult.ok none) (StoreResult.err msg) p
        = (p, [], true)
    ∧ profileSnapshotError msg p =
        (p, ["Error listening to faculty profile: " ++ msg]) :=
  ⟨rfl, rfl, rfl⟩

/-- Claim C9: for both mutation commands, when the append rejects the
error is logged and the collection and the form are returned exactly
unchanged (no field reset, so the user can resubmit); the form is reset
only on the success path. -/
theorem post_failure_logs_and_keeps_form
    (form : AssignmentForm) (sform : ScheduleForm) (profile : Profile)
    (parseDate : String → Nat) (now : Nat) (msg : String)
    (assignments : List AssignmentData) (schedule : List ScheduleData)
    (log : List String)
    (ht : form.title ≠ "") (hd : form.description ≠ "")
    (hdd : form.dueDate ≠ "") (hl : sform.location ≠ "")
    (hti : sform.time ≠ "") (hday : sform.day ≠ "")
    (hc : profile.course ≠ "") :
    handlePostAssignment true form profile parseDate now (StoreResult.err msg)
        assignments log =
      (assignments, form, log ++ ["Error posting assignment: " ++ msg])
    ∧ handlePostSchedule true sform profile now (StoreResult.err msg)
        schedule log =
      (schedule, sform, log ++ ["Error posting schedule: " ++ msg]) := by
  constructor
  · simp [handlePostAssignment, ht, hd, hdd, hc]
  · simp [handlePostSchedule, hl, hti, hday, hc]

/-- Claim C9 witness: both commands at concrete filled forms with a
rejecting append. -/
theorem post_failure_logs_and_keeps_form_witness :
    handlePostAssignment true
        { title := "HW1", description := "Read chapter 1",
          dueDate := "2025-01-01", course := "CS101" }
        initialProfile (fun _ => 7) 42 (StoreResult.err "offline") [] [] =
      ([],
       { title := "HW1", description := "Read chapter 1",
         dueDate := "2025-01-01", course := "CS101" },
       ["Error posting assignment: offline"])
    ∧ handlePostSchedule true
        { course := "CS101", location := "SW-305", time := "9:00-10:30",
          day := "Monday", instructor := "Dr. Smith" }
        initialProfile 42 (StoreResult.err "offline") [] [] =
      ([],
       { course := "CS101", location := "SW-305", time := "9:00-10:30",
         day := "Monday", instructor := "Dr. Smith" },
       ["Error posting schedule: offline"]) :=
  post_failure_logs_and_keeps_form _ _ _ _ _ _ _ _ _ (by decide) (by decide)
    (by decide) (by decide) (by decide) (by decide) (by decide)

/-- Claim C10: a profile snapshot delivered for a non-existent document
leaves the whole component state — in particular the local profile —
unchanged: deletion of the remote record never clears the local
profile. -/
theorem profile_snapshot_missing_doc_noop (s : DashState) :
    step s (Event.profileSnapshot none) = s := by
  simp only [step]
  split <;> rfl

end FacultyDashboard
